import Mathlib

/-!
Verification of the notification data model of mac-notification-sys
(`src/data.rs`): the `MainButton` / `NotificationOptions` configuration
model, the encoder `NotificationOptions::to_dictionary` producing the
flat string-keyed protocol mapping, and the decoder
`NotificationResponse::from_dictionary` reading the native activation
event.

Modelling choices:
* The `NSDictionary` built by `to_dictionary` is modelled as the ordered
  association list of (key, value) pairs exactly as constructed at
  `data.rs:171-219`.
* The activation-event dictionary consumed by `from_dictionary` is
  modelled as a lookup function `String → Option String`
  (`object_for` on an `NSDictionary`).
* Rust borrows `&str` become `String`; `Option<&str>` becomes
  `Option String`.
* The `f64` timestamp and its `to_string` rendering are Rust standard
  library features, not code of this repository; the embedding is
  polymorphic in the timestamp type `F` together with its rendering
  function `fts : F → String` (instantiated with `Nat` and `toString`
  in concrete examples).
* `check_sound` lives in `src/utilities.rs`, which only exposes a
  membership test in the platform sound list; the encoder is
  parameterized by an arbitrary validator `cs : String → Bool`.
-/

namespace MacNotificationSys

/-- Possible actions accessible through the main button of the
notification (`MainButton` in `data.rs`). -/
inductive MainButton where
  /-- Display a single action with the given name. -/
  | SingleAction (label : String)
  /-- Display a dropdown with the given title and list of action names. -/
  | DropdownActions (label : String) (actions : List String)
  /-- Display a text input field with the given placeholder. -/
  | Response (placeholder : String)
deriving DecidableEq

/-- Options to further customize the notification
(`NotificationOptions` in `data.rs`). -/
structure NotificationOptions (F : Type) where
  main_button : Option MainButton
  close_button : Option String
  app_icon : Option String
  content_image : Option String
  group_id : Option String
  delivery_date : Option (F × Bool)
  sound : Option String
deriving DecidableEq

variable {F : Type}

/-- `NotificationOptions::new` (`data.rs:52-62`): the all-absent default. -/
def NotificationOptions.new (F : Type) : NotificationOptions F :=
  ⟨none, none, none, none, none, none, none⟩

/-- `NotificationOptions::main_button` setter (`data.rs:72-75`). -/
def NotificationOptions.mainButton (self : NotificationOptions F)
    (mb : MainButton) : NotificationOptions F :=
  { self with main_button := some mb }

/-- `NotificationOptions::close_button` setter (`data.rs:85-88`). -/
def NotificationOptions.closeButton (self : NotificationOptions F)
    (s : String) : NotificationOptions F :=
  { self with close_button := some s }

/-- `NotificationOptions::delivery_date` setter (`data.rs:150-153`). -/
def NotificationOptions.deliveryDate (self : NotificationOptions F)
    (d : F) (synchronous : Bool) : NotificationOptions F :=
  { self with delivery_date := some (d, synchronous) }

/-- `NotificationOptions::sound` setter (`data.rs:163-166`). -/
def NotificationOptions.setSound (self : NotificationOptions F)
    (s : String) : NotificationOptions F :=
  { self with sound := some s }

/-- `NotificationOptions::to_dictionary` (`data.rs:169-220`), as the
ordered association list of the ten (key, value) pairs handed to
`NSDictionary::from_keys_and_objects`.  `fts` renders the timestamp
(Rust `f64::to_string`); `cs` is `check_sound`. -/
def NotificationOptions.to_dictionary (fts : F → String) (cs : String → Bool)
    (self : NotificationOptions F) : List (String × String) :=
  let mbt : String × List String × Bool :=
    match self.main_button with
    | some (MainButton.SingleAction main_button_label) =>
        (main_button_label, [], false)
    | some (MainButton.DropdownActions main_button_label actions) =>
        (main_button_label, actions, false)
    | some (MainButton.Response response) => (response, [], true)
    | none => ("", [], false)
  [("mainButtonLabel", mbt.1),
   ("actions", String.intercalate "," mbt.2.1),
   ("closeButtonLabel", self.close_button.getD ""),
   ("appIcon", self.app_icon.getD ""),
   ("contentImage", self.content_image.getD ""),
   ("groupID", self.group_id.getD ""),
   ("response", if mbt.2.2 then "yes" else ""),
   ("deliveryDate",
     match self.delivery_date with
     | some (delivery_date, _) => fts delivery_date
     | none => ""),
   ("synchronous",
     match self.delivery_date with
     | some (_, true) => "yes"
     | _ => ""),
   ("sound",
     match self.sound with
     | some sound => if cs sound then sound else "_mute"
     | none => "_mute")]

/-- Response from the notification (`NotificationResponse` in
`data.rs:225-236`). -/
inductive NotificationResponse where
  /-- No interaction has occured. -/
  | None
  /-- User clicked on an action button with the given name. -/
  | ActionButton (s : String)
  /-- User clicked on the close button with the given name. -/
  | CloseButton (s : String)
  /-- User clicked the notification directly. -/
  | Click
  /-- User submitted text to the input text field. -/
  | Reply (s : String)
deriving DecidableEq

/-- `NotificationResponse::from_dictionary` (`data.rs:240-271`), over the
activation-event dictionary modelled as a lookup function. -/
def NotificationResponse.from_dictionary
    (dictionary : String → Option String) : NotificationResponse :=
  let activation_type := dictionary "activationType"
  match activation_type with
  | some "actionClicked" =>
      NotificationResponse.ActionButton ((dictionary "activationValue").getD "")
  | some "closeClicked" =>
      NotificationResponse.CloseButton ((dictionary "activationValue").getD "")
  | some "replied" =>
      NotificationResponse.Reply ((dictionary "activationValue").getD "")
  | some "contentsClicked" => NotificationResponse.Click
  | _ => NotificationResponse.None

/-- C1: the encoder derives `(mainButtonLabel, actions, response)` from
`main_button` by exactly the four-way case analysis of `data.rs:183-193`:
absent gives `("", "", "")`, `SingleAction l` gives `(l, "", "")`,
`DropdownActions l acts` gives `(l, comma-join acts, "")`, and
`Response p` gives `(p, "", "yes")`; the actions list is comma-joined and
the response field is `"yes"` exactly for the `Response` variant. -/
theorem to_dictionary_main_button_cases (fts : F → String) (cs : String → Bool)
    (o : NotificationOptions F) :
    (o.main_button = none →
      List.lookup "mainButtonLabel" (o.to_dictionary fts cs) = some "" ∧
      List.lookup "actions" (o.to_dictionary fts cs) = some "" ∧
      List.lookup "response" (o.to_dictionary fts cs) = some "") ∧
    (∀ l, o.main_button = some (MainButton.SingleAction l) →
      List.lookup "mainButtonLabel" (o.to_dictionary fts cs) = some l ∧
      List.lookup "actions" (o.to_dictionary fts cs) = some "" ∧
      List.lookup "response" (o.to_dictionary fts cs) = some "") ∧
    (∀ l acts, o.main_button = some (MainButton.DropdownActions l acts) →
      List.lookup "mainButtonLabel" (o.to_dictionary fts cs) = some l ∧
      List.lookup "actions" (o.to_dictionary fts cs)
        = some (String.intercalate "," acts) ∧
      List.lookup "response" (o.to_dictionary fts cs) = some "") ∧
    (∀ p, o.main_button = some (MainButton.Response p) →
      List.lookup "mainButtonLabel" (o.to_dictionary fts cs) = some p ∧
      List.lookup "actions" (o.to_dictionary fts cs) = some "" ∧
      List.lookup "response" (o.to_dictionary fts cs) = some "yes") := by
  refine ⟨fun h => ?_, fun l h => ?_, fun l acts h => ?_, fun p h => ?_⟩ <;>
    simp [NotificationOptions.to_dictionary, h, List.lookup] <;> rfl

/-- Witness for C1 at the dropdown example of the spec:
`DropdownActions "Pick" ["A","B","C"]` encodes `actions` as `"A,B,C"`,
`mainButtonLabel` as `"Pick"` and `response` as `""`. -/
theorem to_dictionary_main_button_cases_witness :
    List.lookup "mainButtonLabel"
        (((NotificationOptions.new Nat).mainButton
          (MainButton.DropdownActions "Pick" ["A", "B", "C"])).to_dictionary
            toString (fun _ => false)) = some "Pick" ∧
    List.lookup "actions"
        (((NotificationOptions.new Nat).mainButton
          (MainButton.DropdownActions "Pick" ["A", "B", "C"])).to_dictionary
            toString (fun _ => false)) = some "A,B,C" ∧
    List.lookup "response"
        (((NotificationOptions.new Nat).mainButton
          (MainButton.DropdownActions "Pick" ["A", "B", "C"])).to_dictionary
            toString (fun _ => false)) = some "" :=
  (to_dictionary_main_button_cases toString (fun _ => false)
    ((NotificationOptions.new Nat).mainButton
      (MainButton.DropdownActions "Pick" ["A", "B", "C"]))).2.2.1
    "Pick" ["A", "B", "C"] rfl

/-- C3: for every options model the encoded mapping has exactly ten
string-valued fields, in the fixed order with the exact key names of
`data.rs:171-182`. -/
theorem to_dictionary_keys (fts : F → String) (cs : String → Bool)
    (o : NotificationOptions F) :
    (o.to_dictionary fts cs).map Prod.fst
      = ["mainButtonLabel", "actions", "closeButtonLabel", "appIcon",
         "contentImage", "groupID", "response", "deliveryDate",
         "synchronous", "sound"] ∧
    (o.to_dictionary fts cs).length = 10 := ⟨rfl, rfl⟩

/-- C4: the encoded `sound` field is the caller's sound name exactly when
a sound is set and `check_sound` accepts it, and `"_mute"` otherwise
(`data.rs:214-217`); encoding never fails on an unknown sound. -/
theorem to_dictionary_sound (fts : F → String) (cs : String → Bool)
    (o : NotificationOptions F) :
    (∀ s, o.sound = some s →
      List.lookup "sound" (o.to_dictionary fts cs)
        = some (if cs s then s else "_mute")) ∧
    (o.sound = none →
      List.lookup "sound" (o.to_dictionary fts cs) = some "_mute") := by
  refine ⟨fun s h => ?_, fun h => ?_⟩ <;>
    simp [NotificationOptions.to_dictionary, h, List.lookup]

/-- Witness for C4: a known sound name is emitted unchanged, an unknown
one becomes `"_mute"`. -/
theorem to_dictionary_sound_witness :
    List.lookup "sound"
        (((NotificationOptions.new Nat).setSound "Blow").to_dictionary
          toString (fun s => s == "Blow")) = some "Blow" ∧
    List.lookup "sound"
        (((NotificationOptions.new Nat).setSound "NoSuch").to_dictionary
          toString (fun s => s == "Blow")) = some "_mute" :=
  ⟨(to_dictionary_sound toString (fun s => s == "Blow")
      ((NotificationOptions.new Nat).setSound "Blow")).1 "Blow" rfl,
   (to_dictionary_sound toString (fun s => s == "Blow")
      ((NotificationOptions.new Nat).setSound "NoSuch")).1 "NoSuch" rfl⟩

/-- C5: the encoded `deliveryDate` field is the rendered timestamp when
`delivery_date` is present and `""` otherwise, and `synchronous` is
`"yes"` exactly when `delivery_date` is present with a true synchronous
component and `""` in every other case — absent, and present with a
false synchronous component (`data.rs:205-213`). -/
theorem to_dictionary_delivery_date (fts : F → String) (cs : String → Bool)
    (o : NotificationOptions F) :
    (∀ d b, o.delivery_date = some (d, b) →
      List.lookup "deliveryDate" (o.to_dictionary fts cs) = some (fts d)) ∧
    (o.delivery_date = none →
      List.lookup "deliveryDate" (o.to_dictionary fts cs) = some "" ∧
      List.lookup "synchronous" (o.to_dictionary fts cs) = some "") ∧
    (∀ d, o.delivery_date = some (d, false) →
      List.lookup "synchronous" (o.to_dictionary fts cs) = some "") ∧
    (List.lookup "synchronous" (o.to_dictionary fts cs) = some "yes"
      ↔ ∃ d, o.delivery_date = some (d, true)) := by
  refine ⟨fun d b h => ?_, fun h => ?_, fun d h => ?_, ?_⟩
  · simp [NotificationOptions.to_dictionary, h, List.lookup]
  · simp [NotificationOptions.to_dictionary, h, List.lookup]
  · simp [NotificationOptions.to_dictionary, h, List.lookup]
  · rcases h : o.delivery_date with _ | ⟨d, b⟩
    · simp [NotificationOptions.to_dictionary, h, List.lookup]
    · cases b <;> simp [NotificationOptions.to_dictionary, h, List.lookup]

/-- Witness for C5 at the spec example: `delivery_date = (1700000000, true)`
encodes `deliveryDate = "1700000000"` and `synchronous = "yes"`, while
`delivery_date = (1700000000, false)` encodes `synchronous = ""`. -/
theorem to_dictionary_delivery_date_witness :
    List.lookup "deliveryDate"
        (((NotificationOptions.new Nat).deliveryDate 1700000000 true).to_dictionary
          toString (fun _ => false)) = some "1700000000" ∧
    List.lookup "synchronous"
        (((NotificationOptions.new Nat).deliveryDate 1700000000 true).to_dictionary
          toString (fun _ => false)) = some "yes" ∧
    List.lookup "synchronous"
        (((NotificationOptions.new Nat).deliveryDate 1700000000 false).to_dictionary
          toString (fun _ => false)) = some "" :=
  ⟨(to_dictionary_delivery_date toString (fun _ => false)
      ((NotificationOptions.new Nat).deliveryDate 1700000000 true)).1
      1700000000 true rfl,
   (to_dictionary_delivery_date toString (fun _ => false)
      ((NotificationOptions.new Nat).deliveryDate 1700000000 true)).2.2.2.2
      ⟨1700000000, rfl⟩,
   (to_dictionary_delivery_date toString (fun _ => false)
      ((NotificationOptions.new Nat).deliveryDate 1700000000 false)).2.2.1
      1700000000 rfl⟩

/-- C6: encoding the all-absent default options (`NotificationOptions::new`,
`data.rs:52-62`) yields the mapping where every field is `""` except
`sound`, which is `"_mute"`. -/
theorem to_dictionary_default (fts : F → String) (cs : String → Bool) :
    (NotificationOptions.new F).to_dictionary fts cs
      = [("mainButtonLabel", ""), ("actions", ""), ("closeButtonLabel", ""),
         ("appIcon", ""), ("contentImage", ""), ("groupID", ""),
         ("response", ""), ("deliveryDate", ""), ("synchronous", ""),
         ("sound", "_mute")] := rfl

/-- C9: encoding is deterministic — equal options models encode to
identical mappings. -/
theorem to_dictionary_deterministic (fts : F → String) (cs : String → Bool)
    (o1 o2 : NotificationOptions F) (h : o1 = o2) :
    o1.to_dictionary fts cs = o2.to_dictionary fts cs := by rw [h]

/-- Witness for C9 at a concrete options model. -/
theorem to_dictionary_deterministic_witness :
    ((NotificationOptions.new Nat).closeButton "Close").to_dictionary
        toString (fun _ => false)
      = ((NotificationOptions.new Nat).closeButton "Close").to_dictionary
        toString (fun _ => false) :=
  to_dictionary_deterministic toString (fun _ => false)
    ((NotificationOptions.new Nat).closeButton "Close")
    ((NotificationOptions.new Nat).closeButton "Close") rfl

/-- C2: the decoder is total over every activation-event mapping and
dispatches on `activationType` exactly as `data.rs:249-270`:
`"actionClicked"`, `"closeClicked"` and `"replied"` give `ActionButton`,
`CloseButton` and `Reply` carrying `activationValue` (or `""` if absent),
`"contentsClicked"` gives `Click`, and every other value — including an
absent key — gives `None`. -/
theorem from_dictionary_cases (d : String → Option String) :
    (d "activationType" = some "actionClicked" →
      NotificationResponse.from_dictionary d
        = NotificationResponse.ActionButton ((d "activationValue").getD "")) ∧
    (d "activationType" = some "closeClicked" →
      NotificationResponse.from_dictionary d
        = NotificationResponse.CloseButton ((d "activationValue").getD "")) ∧
    (d "activationType" = some "replied" →
      NotificationResponse.from_dictionary d
        = NotificationResponse.Reply ((d "activationValue").getD "")) ∧
    (d "activationType" = some "contentsClicked" →
      NotificationResponse.from_dictionary d = NotificationResponse.Click) ∧
    (d "activationType" = none →
      NotificationResponse.from_dictionary d = NotificationResponse.None) ∧
    (∀ t, d "activationType" = some t →
      t ∉ (["actionClicked", "closeClicked", "replied",
            "contentsClicked"] : List String) →
      NotificationResponse.from_dictionary d = NotificationResponse.None) := by
  refine ⟨fun h => ?_, fun h => ?_, fun h => ?_, fun h => ?_, fun h => ?_,
    fun t h ht => ?_⟩ <;>
    (unfold NotificationResponse.from_dictionary; rw [h]; try rfl)
  dsimp only
  split <;> simp_all

/-- Witness for C2: a `"replied"` event with an `activationValue` decodes
to `Reply`, and an unrecognized `activationType` decodes to `None`. -/
theorem from_dictionary_cases_witness :
    NotificationResponse.from_dictionary
        (fun k => if k = "activationType" then some "replied"
                  else if k = "activationValue" then some "hello" else none)
      = NotificationResponse.Reply "hello" ∧
    NotificationResponse.from_dictionary
        (fun k => if k = "activationType" then some "windowClosed" else none)
      = NotificationResponse.None :=
  ⟨(from_dictionary_cases
      (fun k => if k = "activationType" then some "replied"
                else if k = "activationValue" then some "hello" else none)).2.2.1
      rfl,
   (from_dictionary_cases
      (fun k => if k = "activationType" then some "windowClosed"
                else none)).2.2.2.2.2 "windowClosed" rfl (by decide)⟩

/-- C7: round-trip of a single-action main button — encoding
`SingleAction "Reply"` and feeding the encoded `mainButtonLabel` back as
the `activationValue` of an `"actionClicked"` event decodes to
`ActionButton "Reply"`. -/
theorem round_trip_single_action (fts : F → String) (cs : String → Bool) :
    NotificationResponse.from_dictionary
        (fun k =>
          if k = "activationType" then some "actionClicked"
          else if k = "activationValue" then
            some ((List.lookup "mainButtonLabel"
              (((NotificationOptions.new F).mainButton
                (MainButton.SingleAction "Reply")).to_dictionary fts cs)).getD "")
          else none)
      = NotificationResponse.ActionButton "Reply" := rfl

/-- C10: the decoder reads only `"activationType"` and `"activationValue"`:
mappings agreeing on those two keys decode identically, and
`activationValue` is itself ignored whenever `activationType` is not one
of the three value-carrying discriminators. -/
theorem from_dictionary_reads_only_two_keys :
    (∀ d1 d2 : String → Option String,
      d1 "activationType" = d2 "activationType" →
      d1 "activationValue" = d2 "activationValue" →
      NotificationResponse.from_dictionary d1
        = NotificationResponse.from_dictionary d2) ∧
    (∀ d1 d2 : String → Option String,
      d1 "activationType" = d2 "activationType" →
      d1 "activationType" ≠ some "actionClicked" →
      d1 "activationType" ≠ some "closeClicked" →
      d1 "activationType" ≠ some "replied" →
      NotificationResponse.from_dictionary d1
        = NotificationResponse.from_dictionary d2) := by
  constructor
  · intro d1 d2 h1 h2
    unfold NotificationResponse.from_dictionary
    rw [h1, h2]
  · intro d1 d2 h1 ha hc hr
    unfold NotificationResponse.from_dictionary
    rw [h1]
    rw [h1] at ha hc hr
    dsimp only
    split <;> simp_all

/-- Witness for C10: two mappings agreeing on the two read keys but
differing on an extra key decode to the same response. -/
theorem from_dictionary_reads_only_two_keys_witness :
    NotificationResponse.from_dictionary
        (fun k => if k = "activationType" then some "contentsClicked"
                  else if k = "extraKey" then some "noise" else none)
      = NotificationResponse.from_dictionary
        (fun k => if k = "activationType" then some "contentsClicked"
                  else none) :=
  from_dictionary_reads_only_two_keys.1
    (fun k => if k = "activationType" then some "contentsClicked"
              else if k = "extraKey" then some "noise" else none)
    (fun k => if k = "activationType" then some "contentsClicked" else none)
    rfl rfl

/-- Modelled from the spec: the Delivery Controller (`send`, spec §4.5) is
not under `src/` — only `data.rs` is.  Per the spec, `send` encodes the
options, hands them to the native bridge, and blocks the calling thread
until an activation event (here `bridgeEvent`) exactly when
`delivery_date` is present with synchronous = true AND a main button is
configured, decoding that event; in every other combination it returns
immediately with `NotificationResponse::None`.  The first component of
the result records whether the call blocked. -/
def send (opts : NotificationOptions F)
    (bridgeEvent : String → Option String) : Bool × NotificationResponse :=
  if (match opts.delivery_date with
      | some (_, true) => true
      | _ => false) && opts.main_button.isSome then
    (true, NotificationResponse.from_dictionary bridgeEvent)
  else
    (false, NotificationResponse.None)

/-- C8: `send` blocks the caller if and only if `delivery_date` is present
with its synchronous component true and a main button is configured; in
every other combination it returns without blocking, with the `None`
response. -/
theorem send_blocking_iff (opts : NotificationOptions F)
    (bridgeEvent : String → Option String) :
    ((send opts bridgeEvent).1 = true ↔
      (∃ d, opts.delivery_date = some (d, true)) ∧
        opts.main_button.isSome = true) ∧
    ((send opts bridgeEvent).1 = false →
      (send opts bridgeEvent).2 = NotificationResponse.None) := by
  obtain ⟨mb, _, _, _, _, dd, _⟩ := opts
  rcases dd with _ | ⟨d, b⟩
  · cases mb <;> simp [send]
  · cases b <;> cases mb <;> simp [send]

/-- Witness for C8: with a synchronous delivery date and no main button,
`send` does not block and returns `None`. -/
theorem send_blocking_iff_witness :
    (send ((NotificationOptions.new Nat).deliveryDate 1700000000 true)
        (fun _ => none)).1 = false ∧
    (send ((NotificationOptions.new Nat).deliveryDate 1700000000 true)
        (fun _ => none)).2 = NotificationResponse.None :=
  ⟨by decide,
   (send_blocking_iff
      ((NotificationOptions.new Nat).deliveryDate 1700000000 true)
      (fun _ => none)).2 (by decide)⟩

end MacNotificationSys
